import Mathlib

/-
  Shallow embedding of the Catheter Watchdog agent
  (tdiprima/Catheter-Watchdog-Agent).

  Sources embedded:
  - src/hapi/watchdog.py      (namespace Hapi)
  - src/watchdog_mock.py      (namespace Mock)
  - src/hapi/patients_hapi.py (patient discovery; same logic as the
    fetch_patients_with_catheters helper in src/hapi/watchdog.py)

  Modelling conventions:
  - Python floats are modelled as exact rationals.
  - A timestamp is either a parsed timezone-aware instant (measured in
    epoch seconds) or a malformed string on which datetime.fromisoformat
    raises ValueError.
  - Python exceptions are modelled with Except: code that does not catch
    an exception propagates the error value.
  - The LangGraph StateGraph is modelled as an explicit step function on
    pairs of a state and the next node; a node returning an update dict
    is modelled as a record update that leaves unmentioned fields
    unchanged, which is how LangGraph merges updates into the pydantic
    state.
  - Python string operations (startswith, split) are modelled over the
    character lists of the strings.
-/

namespace Watchdog

/-- A timestamp string: either it parses (datetime.fromisoformat after the
Z replacement succeeds, yielding an instant in epoch seconds) or it is
malformed and parsing raises ValueError. -/
inductive Timestamp where
  | valid (epochSeconds : ℚ)
  | malformed (raw : String)
  deriving DecidableEq, Repr

/-- Python exceptions the watchdog code can raise. -/
inductive Err where
  | requestError   -- requests.get(url).json() raised: network or JSON failure
  | valueError     -- datetime.fromisoformat raised on a malformed timestamp
  | typeError      -- comparison with None, or subscripting None
  | keyError       -- the conditional-edge router produced an unmapped value
  deriving DecidableEq, Repr

/-- hours_since_insertion (src/hapi/watchdog.py lines 60 to 64, and the
identical function in src/watchdog_mock.py lines 40 to 44): parse the ISO
timestamp, subtract it from the current time, and convert the difference
from seconds to hours. A malformed timestamp raises ValueError. -/
def hours_since_insertion (iso_time : Timestamp) (now : ℚ) : Except Err ℚ :=
  match iso_time with
  | .valid inserted_time => .ok ((now - inserted_time) / 3600)
  | .malformed _ => .error .valueError

/-- The slice of a FHIR Device resource that fetch_catheter_data reads:
resource.meta.lastUpdated, absent when the meta block or the field is
missing. The other fields of the resource are carried along by the Python
code but never read by any node, so they are not modelled. -/
structure DeviceResource where
  lastUpdated : Option Timestamp
  deriving DecidableEq, Repr

/-- The dict built by fetch_catheter_data: patient_id and the inserted
timestamp (the device payload is carried but never read afterwards). -/
structure CatheterRecord where
  patient_id : String
  inserted : Timestamp
  deriving DecidableEq, Repr

/-- The pydantic State schema (src/hapi/watchdog.py lines 20 to 24 and
src/watchdog_mock.py lines 83 to 87): patient_id required, the rest
defaulting to None. The notified key returned by notify_staff_node is not
a field of this schema, so it does not appear here. -/
structure State where
  patient_id : String
  catheter_data : Option CatheterRecord := none
  hours_since : Option ℚ := none
  status : Option String := none
  deriving DecidableEq, Repr

/-- app.invoke is called with only patient_id set; pydantic fills in the
defaults for the remaining fields. -/
def initState (patient_id : String) : State :=
  { patient_id := patient_id }

/-- CHANGE_INTERVAL_HOURS = 72, the hospital protocol threshold, identical
in both sources. -/
def CHANGE_INTERVAL_HOURS : ℚ := 72

/-- The named nodes of the LangGraph StateGraph. END is represented as the
absence of a next node in the step functions. -/
inductive Node where
  | check_schedule
  | decide_action
  | notify_staff
  | reschedule
  deriving DecidableEq, Repr

namespace Hapi

/-- The outcome of requests.get(url).json() for the Device query of one
patient: either the request raises, or it yields the entry list of the
bundle (bundle.get with default [] turns a missing entry key into the
empty list). -/
def FetchEnv : Type := String → Except Err (List DeviceResource)

/-- fetch_catheter_data (src/hapi/watchdog.py lines 44 to 57): query the
server; return None on an empty entry list; otherwise read only the first
entry and return a record exactly when its meta.lastUpdated is present. -/
def fetch_catheter_data (env : FetchEnv) (patient_id : String) :
    Except Err (Option CatheterRecord) :=
  match env patient_id with
  | .error e => .error e
  | .ok entries =>
    match entries with
    | [] => .ok none
    | catheter :: _ =>
      match catheter.lastUpdated with
      | some inserted => .ok (some { patient_id := patient_id, inserted := inserted })
      | none => .ok none

/-- check_schedule_node (src/hapi/watchdog.py lines 70 to 75). No failure
is caught here: an exception from the fetch or from hours_since_insertion
propagates. -/
def check_schedule_node (env : FetchEnv) (now : ℚ) (state : State) :
    Except Err State :=
  match fetch_catheter_data env state.patient_id with
  | .error e => .error e
  | .ok none => .ok { state with status := some ("no_data") }
  | .ok (some catheter_data) =>
    match hours_since_insertion catheter_data.inserted now with
    | .error e => .error e
    | .ok hours =>
      .ok { state with catheter_data := some catheter_data, hours_since := some hours }

/-- decide_action_node (src/hapi/watchdog.py lines 78 to 83). -/
def decide_action_node (state : State) : State :=
  match state.hours_since with
  | none => { state with status := some ("no_data") }
  | some hs =>
    if hs > CHANGE_INTERVAL_HOURS then { state with status := some ("overdue") }
    else { state with status := some ("ok") }

/-- notify_staff_node (src/hapi/watchdog.py lines 86 to 91): subscripting
state.catheter_data raises TypeError when it is None, and formatting
state.hours_since raises TypeError when it is None. The printed alert is
console output, and the returned notified key is not a field of the State
schema, so the schema fields are unchanged. -/
def notify_staff_node (state : State) : Except Err State :=
  match state.catheter_data with
  | none => .error .typeError
  | some _ =>
    match state.hours_since with
    | none => .error .typeError
    | some _ => .ok state

/-- reschedule_node (src/hapi/watchdog.py lines 94 to 97): prints, sleeps,
and returns an empty update. -/
def reschedule_node (state : State) : State := state

/-- One step of the hapi graph (src/hapi/watchdog.py lines 101 to 120):
entry point check_schedule; check_schedule to decide_action; conditional
edges on status out of decide_action (overdue to notify_staff, ok to
reschedule, no_data to END, any other routing value raises);
notify_staff to reschedule; reschedule back to check_schedule. The result
pairs the updated state with the next node, none meaning END. -/
def step (env : FetchEnv) (now : ℚ) :
    Node → State → Except Err (State × Option Node)
  | .check_schedule, s =>
    match check_schedule_node env now s with
    | .error e => .error e
    | .ok s2 => .ok (s2, some .decide_action)
  | .decide_action, s =>
    let s2 := decide_action_node s
    match s2.status with
    | some st =>
      if st = "overdue" then .ok (s2, some .notify_staff)
      else if st = "ok" then .ok (s2, some .reschedule)
      else if st = "no_data" then .ok (s2, none)
      else .error .keyError
    | none => .error .keyError
  | .notify_staff, s =>
    match notify_staff_node s with
    | .error e => .error e
    | .ok s2 => .ok (s2, some .reschedule)
  | .reschedule, s => .ok (reschedule_node s, some .check_schedule)

/-- Run the graph from a node with the given amount of fuel; ok none means
the fuel ran out before END was reached (the hapi graph loops from
reschedule back to check_schedule, so a patient with data never reaches
END on its own). -/
def run_from (env : FetchEnv) (now : ℚ) :
    Nat → Node → State → Except Err (Option State)
  | 0, _, _ => .ok none
  | fuel + 1, n, s =>
    match step env now n s with
    | .error e => .error e
    | .ok (s2, none) => .ok (some s2)
    | .ok (s2, some n2) => run_from env now fuel n2 s2

/-- app.invoke for one patient: run from the entry point on the initial
state. -/
def invoke (env : FetchEnv) (now : ℚ) (fuel : Nat) (patient_id : String) :
    Except Err (Option State) :=
  run_from env now fuel .check_schedule (initState patient_id)

/-- The per-patient loop of the main block (src/hapi/watchdog.py lines 126
to 132): app.invoke once per patient, in order; an uncaught exception from
one invocation aborts the whole loop. -/
def run_patients (env : FetchEnv) (now : ℚ) (fuel : Nat) :
    List String → Except Err (List (String × Option State))
  | [] => .ok []
  | p :: rest =>
    match invoke env now fuel p with
    | .error e => .error e
    | .ok r =>
      match run_patients env now fuel rest with
      | .error e => .error e
      | .ok l => .ok ((p, r) :: l)

end Hapi

namespace Mock

/-- fetch_patients_with_catheters (src/watchdog_mock.py lines 15 to 17). -/
def fetch_patients_with_catheters : List String :=
  ["patient-001", "patient-002", "patient-003"]

/-- The patient_offsets dict inside fetch_catheter_data
(src/watchdog_mock.py lines 23 to 27). -/
def patient_offsets (patient_id : String) : Option ℚ :=
  if patient_id = "patient-001" then some 100
  else if patient_id = "patient-002" then some 12
  else if patient_id = "patient-003" then some 70
  else none

/-- fetch_catheter_data (src/watchdog_mock.py lines 20 to 37): for a known
patient, an insertion instant offset_hours before now, formatted with
strftime and later reparsed by hours_since_insertion. strftime with a
whole-second format truncates fractional seconds, modelled by the floor;
consequently the recomputed elapsed time is offset_hours plus the
fractional second of now divided by 3600. Unknown patients yield None. -/
def fetch_catheter_data (now : ℚ) (patient_id : String) : Option CatheterRecord :=
  match patient_offsets patient_id with
  | some offset_hours =>
    some { patient_id := patient_id,
           inserted := .valid ((Int.floor (now - offset_hours * 3600) : ℤ) : ℚ) }
  | none => none

/-- check_schedule_node (src/watchdog_mock.py lines 49 to 57): identical
to the hapi node except that the data comes from the mock provider, which
cannot raise. -/
def check_schedule_node (now : ℚ) (state : State) : Except Err State :=
  match fetch_catheter_data now state.patient_id with
  | none => .ok { state with status := some ("no_data") }
  | some catheter_data =>
    match hours_since_insertion catheter_data.inserted now with
    | .error e => .error e
    | .ok hours =>
      .ok { state with catheter_data := some catheter_data, hours_since := some hours }

/-- decide_action_node (src/watchdog_mock.py lines 60 to 66): compares
state.hours_since directly with the threshold. When hours_since is None
the comparison of None with an int raises TypeError in Python 3; there is
no None guard in this variant. -/
def decide_action_node (state : State) : Except Err State :=
  match state.hours_since with
  | none => .error .typeError
  | some hs =>
    if hs > CHANGE_INTERVAL_HOURS then .ok { state with status := some ("overdue") }
    else if hs > CHANGE_INTERVAL_HOURS - 2 then .ok { state with status := some ("borderline") }
    else .ok { state with status := some ("ok") }

/-- notify_staff_node (src/watchdog_mock.py lines 69 to 72), identical to
the hapi node. -/
def notify_staff_node (state : State) : Except Err State :=
  match state.catheter_data with
  | none => .error .typeError
  | some _ =>
    match state.hours_since with
    | none => .error .typeError
    | some _ => .ok state

/-- reschedule_node (src/watchdog_mock.py lines 75 to 78). -/
def reschedule_node (state : State) : State := state

/-- One step of the mock graph (src/watchdog_mock.py lines 90 to 108):
entry point check_schedule; check_schedule to decide_action; conditional
edges on status out of decide_action (overdue to notify_staff, borderline
to reschedule, ok to reschedule, no_data to END); notify_staff to
reschedule; reschedule to END (single-pass variant). -/
def step (now : ℚ) : Node → State → Except Err (State × Option Node)
  | .check_schedule, s =>
    match check_schedule_node now s with
    | .error e => .error e
    | .ok s2 => .ok (s2, some .decide_action)
  | .decide_action, s =>
    match decide_action_node s with
    | .error e => .error e
    | .ok s2 =>
      match s2.status with
      | some st =>
        if st = "overdue" then .ok (s2, some .notify_staff)
        else if st = "borderline" then .ok (s2, some .reschedule)
        else if st = "ok" then .ok (s2, some .reschedule)
        else if st = "no_data" then .ok (s2, none)
        else .error .keyError
      | none => .error .keyError
  | .notify_staff, s =>
    match notify_staff_node s with
    | .error e => .error e
    | .ok s2 => .ok (s2, some .reschedule)
  | .reschedule, s => .ok (reschedule_node s, none)

/-- Run the mock graph from a node with the given amount of fuel; ok none
means the fuel ran out (the mock graph always reaches END or raises within
five steps). -/
def run_from (now : ℚ) : Nat → Node → State → Except Err (Option State)
  | 0, _, _ => .ok none
  | fuel + 1, n, s =>
    match step now n s with
    | .error e => .error e
    | .ok (s2, none) => .ok (some s2)
    | .ok (s2, some n2) => run_from now fuel n2 s2

/-- app.invoke for one patient in the mock variant. -/
def invoke (now : ℚ) (fuel : Nat) (patient_id : String) :
    Except Err (Option State) :=
  run_from now fuel .check_schedule (initState patient_id)

end Mock

/-- One bundle entry resource as read by fetch_patients_with_catheters:
a resourceType Patient with an id, a resourceType Device with its
patient.reference string (missing pieces default to the empty string), or
any other resource type. -/
inductive FhirResource where
  | patient (id : String)
  | device (reference : String)
  | other
  deriving DecidableEq, Repr

/-- Python str.startswith, modelled over the character lists of the two
strings. -/
def startswith (pre s : String) : Bool :=
  pre.data.isPrefixOf s.data

/-- Python str.split with a one-character separator, over character lists:
the result is never empty and empty segments are kept. -/
def splitOnChar (sep : Char) : List Char → List (List Char)
  | [] => [[]]
  | c :: rest =>
    if c = sep then [] :: splitOnChar sep rest
    else
      match splitOnChar sep rest with
      | h :: t => (c :: h) :: t
      | [] => [[c]]

/-- Python str.split with a one-character separator. -/
def split (sep : Char) (s : String) : List String :=
  (splitOnChar sep s.data).map String.mk

/-- fetch_patients_with_catheters (src/hapi/watchdog.py lines 28 to 41;
the same logic appears in src/hapi/patients_hapi.py lines 12 to 26): fold
the bundle entries into a set of patient ids. A Patient resource
contributes its id; a Device resource whose patient reference starts with
the string Patient followed by a slash contributes element 1 of the split
of the reference on slashes; anything else is skipped. An empty bundle
yields the empty set. -/
def fetch_patients_with_catheters (entries : List FhirResource) : Finset String :=
  entries.foldl
    (fun patient_ids resource =>
      match resource with
      | .patient id => insert id patient_ids
      | .device patient_ref =>
        if startswith ("Patient/") patient_ref then
          insert ((split ('/') patient_ref).getD 1 "") patient_ids
        else patient_ids
      | .other => patient_ids)
    ∅

/-- The status that Hapi.decide_action_node derives from hours_since: the
classifier of spec section 4.2 with borderline collapsed into ok. -/
def classify_hapi : Option ℚ → String
  | none => "no_data"
  | some hs => if hs > CHANGE_INTERVAL_HOURS then "overdue" else "ok"

/-- The classifier of spec section 4.2 with the borderline refinement, as
realised across src/watchdog_mock.py: the absent case is the no_data
assignment made by check_schedule_node, and the present cases are
decide_action_node (which itself raises on an absent value). -/
def classify_mock : Option ℚ → String
  | none => "no_data"
  | some hs =>
    if hs > CHANGE_INTERVAL_HOURS then "overdue"
    else if hs > CHANGE_INTERVAL_HOURS - 2 then "borderline"
    else "ok"

/-- A configuration of a run: the current state paired with the node about
to execute, none once END has been reached. -/
def Config : Type := State × Option Node

/-- One transition of the hapi graph between configurations. -/
def Hapi.StepsTo (env : Hapi.FetchEnv) (now : ℚ) (c c2 : Config) : Prop :=
  ∃ n, c.2 = some n ∧ Hapi.step env now n c.1 = .ok c2

/-- Configurations reachable in the hapi graph from the initial
configuration for a patient. -/
def Hapi.Reachable (env : Hapi.FetchEnv) (now : ℚ) (pid : String) (c : Config) : Prop :=
  Relation.ReflTransGen (Hapi.StepsTo env now) (initState pid, some Node.check_schedule) c

/-- One transition of the mock graph between configurations. -/
def Mock.StepsTo (now : ℚ) (c c2 : Config) : Prop :=
  ∃ n, c.2 = some n ∧ Mock.step now n c.1 = .ok c2

/-- Configurations reachable in the mock graph from the initial
configuration for a patient. -/
def Mock.Reachable (now : ℚ) (pid : String) (c : Config) : Prop :=
  Relation.ReflTransGen (Mock.StepsTo now) (initState pid, some Node.check_schedule) c

/-- Strong inductive invariant for the hapi graph: every reachable
configuration is the initial one, the no-record outcome, or a with-record
state whose fields agree with the (fixed) fetch environment and whose
status, when set, is the classifier value. -/
def Hapi.InvC (env : Hapi.FetchEnv) (now : ℚ) (pid : String) (c : Config) : Prop :=
  c.1.patient_id = pid ∧
  ((c.1 = initState pid ∧ c.2 = some Node.check_schedule) ∨
   (Hapi.fetch_catheter_data env pid = .ok none ∧
     c.1 = { patient_id := pid, status := some ("no_data") } ∧
     (c.2 = some Node.decide_action ∨ c.2 = none)) ∨
   (∃ r hq, Hapi.fetch_catheter_data env pid = .ok (some r) ∧
     hours_since_insertion r.inserted now = .ok hq ∧
     c.1.catheter_data = some r ∧ c.1.hours_since = some hq ∧
     ((c.1.status = none ∧ c.2 = some Node.decide_action) ∨
      c.1.status = some (classify_hapi (some hq)))))

/-- Strong inductive invariant for the mock graph, the analogue of the
hapi one; the classifier for present values is the borderline-refined one,
and the absent case can only arise from the no-record assignment in
check_schedule_node. -/
def Mock.InvC (now : ℚ) (pid : String) (c : Config) : Prop :=
  c.1.patient_id = pid ∧
  ((c.1 = initState pid ∧ c.2 = some Node.check_schedule) ∨
   (Mock.fetch_catheter_data now pid = none ∧
     c.1 = { patient_id := pid, status := some ("no_data") } ∧
     c.2 = some Node.decide_action) ∨
   (∃ r hq, Mock.fetch_catheter_data now pid = some r ∧
     hours_since_insertion r.inserted now = .ok hq ∧
     c.1.catheter_data = some r ∧ c.1.hours_since = some hq ∧
     ((c.1.status = none ∧ c.2 = some Node.decide_action) ∨
      c.1.status = some (classify_mock (some hq)))))

end Watchdog

namespace Watchdog

theorem splitOnChar_of_not_mem {sep : Char} : ∀ {l : List Char}, sep ∉ l →
    splitOnChar sep l = [l]
  | [], _ => rfl
  | c :: rest, h => by
    have hc : ¬ c = sep := fun e => h (e ▸ List.mem_cons_self c rest)
    have hr : sep ∉ rest := fun m => h (List.mem_cons_of_mem c m)
    simp [splitOnChar, hc, splitOnChar_of_not_mem hr]

theorem splitOnChar_append {sep : Char} : ∀ (p l : List Char), sep ∉ p →
    splitOnChar sep (p ++ sep :: l) = p :: splitOnChar sep l
  | [], l, _ => by simp [splitOnChar]
  | c :: p, l, h => by
    have hc : ¬ c = sep := fun e => h (e ▸ List.mem_cons_self c p)
    have hp : sep ∉ p := fun m => h (List.mem_cons_of_mem c m)
    simp [splitOnChar, hc, splitOnChar_append p l hp]

theorem isPrefixOf_append_list (p t : List Char) : p.isPrefixOf (p ++ t) = true := by
  induction p with
  | nil => simp
  | cons c p ih => simp [List.isPrefixOf, ih]

theorem startswith_patient_ref (Y : String) :
    startswith ("Patient/") ("Patient/" ++ Y) = true := by
  simp [startswith, String.data_append, isPrefixOf_append_list]

theorem split_patient_ref (Y : String) (hY : ('/') ∉ Y.data) :
    (split ('/') ("Patient/" ++ Y)).getD 1 "" = Y := by
  have hdata : ("Patient/" ++ Y).data
      = ('P') :: ('a') :: ('t') :: ('i') :: ('e') :: ('n') :: ('t') :: ('/') :: Y.data := by
    simp [String.data_append]
  simp [split, hdata, splitOnChar, splitOnChar_of_not_mem hY]

theorem Hapi.check_schedule_node_pid {env : Hapi.FetchEnv} {now : ℚ} {s s2 : State}
    (h : Hapi.check_schedule_node env now s = .ok s2) : s2.patient_id = s.patient_id := by
  unfold Hapi.check_schedule_node at h
  split at h
  · cases h
  · cases h; rfl
  · split at h
    · cases h
    · cases h; rfl

theorem Hapi.decide_action_node_pid (s : State) :
    (Hapi.decide_action_node s).patient_id = s.patient_id := by
  unfold Hapi.decide_action_node
  split
  · rfl
  · split_ifs <;> rfl

theorem Hapi.notify_staff_node_pid {s s2 : State}
    (h : Hapi.notify_staff_node s = .ok s2) : s2.patient_id = s.patient_id := by
  unfold Hapi.notify_staff_node at h
  split at h
  · cases h
  · split at h
    · cases h
    · cases h; rfl

theorem Hapi.step_pid {env : Hapi.FetchEnv} {now : ℚ} {n : Node} {s : State}
    {c2 : State × Option Node} (h : Hapi.step env now n s = .ok c2) :
    c2.1.patient_id = s.patient_id := by
  cases n <;> simp only [Hapi.step] at h
  · rcases hc : Hapi.check_schedule_node env now s with e | s2 <;> rw [hc] at h
    · cases h
    · cases h; exact Hapi.check_schedule_node_pid hc
  · split at h
    · split_ifs at h <;> cases h <;> exact Hapi.decide_action_node_pid s
    · cases h
  · rcases hn : Hapi.notify_staff_node s with e | s2 <;> rw [hn] at h
    · cases h
    · cases h; exact Hapi.notify_staff_node_pid hn
  · cases h; rfl

theorem Hapi.step_congr {env1 env2 : Hapi.FetchEnv} {now : ℚ} {n : Node} {s : State}
    (h : env1 s.patient_id = env2 s.patient_id) :
    Hapi.step env1 now n s = Hapi.step env2 now n s := by
  cases n <;> simp [Hapi.step, Hapi.check_schedule_node, Hapi.fetch_catheter_data, h]

theorem Hapi.run_from_congr (env1 env2 : Hapi.FetchEnv) (now : ℚ) :
    ∀ (fuel : Nat) (n : Node) (s : State), env1 s.patient_id = env2 s.patient_id →
      Hapi.run_from env1 now fuel n s = Hapi.run_from env2 now fuel n s := by
  intro fuel
  induction fuel with
  | zero => intro n s h; rfl
  | succ fuel ih =>
    intro n s h
    simp only [Hapi.run_from]
    rw [← @Hapi.step_congr env1 env2 now n s h]
    rcases hs : Hapi.step env1 now n s with e | ⟨s2, k⟩
    · rfl
    · rcases k with - | n2
      · rfl
      · exact ih n2 s2 (by rw [Hapi.step_pid hs]; exact h)

theorem Hapi.decide_action_node_eq (s : State) :
    Hapi.decide_action_node s = { s with status := some (classify_hapi s.hours_since) } := by
  rcases hs : s.hours_since with _ | v
  · simp only [Hapi.decide_action_node, classify_hapi, hs]
  · simp only [Hapi.decide_action_node, classify_hapi, hs]
    split_ifs <;> rfl

theorem Mock.decide_action_node_some_eq (s : State) (v : ℚ) (hs : s.hours_since = some v) :
    Mock.decide_action_node s = .ok { s with status := some (classify_mock (some v)) } := by
  simp only [Mock.decide_action_node, classify_mock, hs]
  split_ifs <;> rfl

theorem Hapi.step_check_next {env : Hapi.FetchEnv} {now : ℚ} {s : State}
    {c2 : State × Option Node} (h : Hapi.step env now .check_schedule s = .ok c2) :
    c2.2 = some .decide_action := by
  simp only [Hapi.step] at h
  rcases hc : Hapi.check_schedule_node env now s with e | s2 <;> rw [hc] at h
  · cases h
  · cases h; rfl

theorem Hapi.step_decide_cases {env : Hapi.FetchEnv} {now : ℚ} {s : State}
    {c2 : State × Option Node} (h : Hapi.step env now .decide_action s = .ok c2) :
    (c2.2 = some .notify_staff ∧ c2.1.status = some ("overdue"))
    ∨ (c2.2 = some .reschedule ∧ c2.1.status = some ("ok"))
    ∨ (c2.2 = none ∧ c2.1.status = some ("no_data")) := by
  simp only [Hapi.step, Hapi.decide_action_node_eq] at h
  rcases hv : s.hours_since with _ | v <;> rw [hv] at h <;>
    simp only [classify_hapi] at h
  · simp at h
    subst h
    right; right; exact ⟨rfl, rfl⟩
  · by_cases hvy : CHANGE_INTERVAL_HOURS < v
    · simp [hvy] at h
      subst h
      left; exact ⟨rfl, rfl⟩
    · simp [hvy] at h
      subst h
      right; left; exact ⟨rfl, rfl⟩

theorem Hapi.step_notify_next {env : Hapi.FetchEnv} {now : ℚ} {s : State}
    {c2 : State × Option Node} (h : Hapi.step env now .notify_staff s = .ok c2) :
    c2.2 = some .reschedule := by
  simp only [Hapi.step] at h
  rcases hn : Hapi.notify_staff_node s with e | s2 <;> rw [hn] at h
  · cases h
  · cases h; rfl

theorem Hapi.step_reschedule_next {env : Hapi.FetchEnv} {now : ℚ} {s : State}
    {c2 : State × Option Node} (h : Hapi.step env now .reschedule s = .ok c2) :
    c2.2 = some .check_schedule := by
  simp only [Hapi.step] at h
  cases h; rfl

theorem Hapi.notify_only_from_decide {env : Hapi.FetchEnv} {now : ℚ} {n : Node} {s : State}
    {c2 : State × Option Node} (h : Hapi.step env now n s = .ok c2)
    (hk : c2.2 = some .notify_staff) : n = .decide_action ∧ c2.1.status = some ("overdue") := by
  cases n
  · rw [Hapi.step_check_next h] at hk; cases hk
  · rcases Hapi.step_decide_cases h with ⟨h1, h2⟩ | ⟨h1, h2⟩ | ⟨h1, h2⟩
    · exact ⟨rfl, h2⟩
    · rw [h1] at hk; cases hk
    · rw [h1] at hk; cases hk
  · rw [Hapi.step_notify_next h] at hk; cases hk
  · rw [Hapi.step_reschedule_next h] at hk; cases hk

theorem Mock.check_next {now : ℚ} {s : State}
    {c2 : State × Option Node} (h : Mock.step now .check_schedule s = .ok c2) :
    c2.2 = some .decide_action := by
  simp only [Mock.step] at h
  rcases hc : Mock.check_schedule_node now s with e | s2 <;> rw [hc] at h
  · cases h
  · cases h; rfl

theorem Mock.decide_cases {now : ℚ} {s : State}
    {c2 : State × Option Node} (h : Mock.step now .decide_action s = .ok c2) :
    (c2.2 = some .notify_staff ∧ c2.1.status = some ("overdue"))
    ∨ (c2.2 = some .reschedule ∧
        (c2.1.status = some ("borderline") ∨ c2.1.status = some ("ok")))
    ∨ (c2.2 = none ∧ c2.1.status = some ("no_data")) := by
  simp only [Mock.step] at h
  rcases hv : s.hours_since with _ | v
  · have hd : Mock.decide_action_node s = .error .typeError := by
      simp [Mock.decide_action_node, hv]
    rw [hd] at h; cases h
  · rw [Mock.decide_action_node_some_eq s v hv] at h
    by_cases h1 : CHANGE_INTERVAL_HOURS < v
    · simp [classify_mock, h1] at h
      subst h
      left; exact ⟨rfl, rfl⟩
    · by_cases h2 : CHANGE_INTERVAL_HOURS - 2 < v
      · simp [classify_mock, h1, h2] at h
        subst h
        right; left; exact ⟨rfl, .inl rfl⟩
      · simp [classify_mock, h1, h2] at h
        subst h
        right; left; exact ⟨rfl, .inr rfl⟩

theorem Mock.notify_next {now : ℚ} {s : State}
    {c2 : State × Option Node} (h : Mock.step now .notify_staff s = .ok c2) :
    c2.2 = some .reschedule := by
  simp only [Mock.step] at h
  rcases hn : Mock.notify_staff_node s with e | s2 <;> rw [hn] at h
  · cases h
  · cases h; rfl

theorem Mock.reschedule_next {now : ℚ} {s : State}
    {c2 : State × Option Node} (h : Mock.step now .reschedule s = .ok c2) :
    c2.2 = none := by
  simp only [Mock.step] at h
  cases h; rfl

theorem Mock.notify_from_decide {now : ℚ} {n : Node} {s : State}
    {c2 : State × Option Node} (h : Mock.step now n s = .ok c2)
    (hk : c2.2 = some .notify_staff) : n = .decide_action ∧ c2.1.status = some ("overdue") := by
  cases n
  · rw [Mock.check_next h] at hk; cases hk
  · rcases Mock.decide_cases h with ⟨h1, h2⟩ | ⟨h1, h2⟩ | ⟨h1, h2⟩
    · exact ⟨rfl, h2⟩
    · rw [h1] at hk; cases hk
    · rw [h1] at hk; cases hk
  · rw [Mock.notify_next h] at hk; cases hk
  · rw [Mock.reschedule_next h] at hk; cases hk

end Watchdog

namespace Watchdog

theorem Hapi.invC_preserved {env : Hapi.FetchEnv} {now : ℚ} {pid : String} {c c2 : Config}
    (hinv : Hapi.InvC env now pid c) (hstep : Hapi.StepsTo env now c c2) :
    Hapi.InvC env now pid c2 := by
  obtain ⟨n, hn, hs⟩ := hstep
  obtain ⟨hpid, hcase⟩ := hinv
  rcases hcase with ⟨hs1, hk⟩ | ⟨hf, hs1, hk⟩ | ⟨r, hq, hf, hh, hcd, hhs, hsub⟩
  · -- initial configuration, about to run check_schedule
    rw [hk] at hn; injection hn with hn; subst hn
    rw [hs1] at hs
    simp only [Hapi.step] at hs
    rcases hfc : Hapi.fetch_catheter_data env pid with e | o
    · have hcn : Hapi.check_schedule_node env now (initState pid) = .error e := by
        simp [Hapi.check_schedule_node, initState, hfc]
      rw [hcn] at hs; cases hs
    · rcases o with _ | r
      · have hcn : Hapi.check_schedule_node env now (initState pid)
            = .ok { patient_id := pid, status := some ("no_data") } := by
          simp [Hapi.check_schedule_node, initState, hfc]
        rw [hcn] at hs; cases hs
        exact ⟨rfl, .inr (.inl ⟨hfc, rfl, .inl rfl⟩)⟩
      · rcases hhr : hours_since_insertion r.inserted now with e | hq
        · have hcn : Hapi.check_schedule_node env now (initState pid) = .error e := by
            simp [Hapi.check_schedule_node, initState, hfc, hhr]
          rw [hcn] at hs; cases hs
        · have hcn : Hapi.check_schedule_node env now (initState pid)
              = .ok { patient_id := pid, catheter_data := some r, hours_since := some hq } := by
            simp [Hapi.check_schedule_node, initState, hfc, hhr]
          rw [hcn] at hs; cases hs
          exact ⟨rfl, .inr (.inr ⟨r, hq, hfc, hhr, rfl, rfl, .inl ⟨rfl, rfl⟩⟩)⟩
  · -- no-record state
    rcases hk with hk | hk
    · rw [hk] at hn; injection hn with hn; subst hn
      rw [hs1] at hs
      have hd : Hapi.step env now .decide_action
          ({ patient_id := pid, status := some ("no_data") } : State)
          = .ok ({ patient_id := pid, status := some ("no_data") }, none) := by
        simp [Hapi.step, Hapi.decide_action_node]
      rw [hd] at hs; cases hs
      exact ⟨rfl, .inr (.inl ⟨hf, rfl, .inr rfl⟩)⟩
    · rw [hk] at hn; cases hn
  · -- with-record state
    rcases hsub with ⟨hst, hk⟩ | hst
    · -- status not yet set: next node is decide_action
      rw [hk] at hn; injection hn with hn; subst hn
      simp only [Hapi.step, Hapi.decide_action_node_eq, hhs] at hs
      by_cases hvy : CHANGE_INTERVAL_HOURS < hq
      · simp [classify_hapi, hvy] at hs
        subst hs
        exact ⟨hpid, .inr (.inr ⟨r, hq, hf, hh, hcd, rfl,
          .inr (by simp [classify_hapi, hvy])⟩)⟩
      · simp [classify_hapi, hvy] at hs
        subst hs
        exact ⟨hpid, .inr (.inr ⟨r, hq, hf, hh, hcd, rfl,
          .inr (by simp [classify_hapi, hvy])⟩)⟩
    · -- status already the classifier value: any node may run next
      cases n
      · -- check_schedule refetches the same record
        have hcn : Hapi.check_schedule_node env now c.1
            = .ok { c.1 with catheter_data := some r, hours_since := some hq } := by
          simp [Hapi.check_schedule_node, hpid, hf, hh]
        simp only [Hapi.step] at hs
        rw [hcn] at hs; cases hs
        exact ⟨hpid, .inr (.inr ⟨r, hq, hf, hh, rfl, rfl, .inr hst⟩)⟩
      · simp only [Hapi.step, Hapi.decide_action_node_eq, hhs] at hs
        by_cases hvy : CHANGE_INTERVAL_HOURS < hq
        · simp [classify_hapi, hvy] at hs
          subst hs
          exact ⟨hpid, .inr (.inr ⟨r, hq, hf, hh, hcd, rfl,
            .inr (by simp [classify_hapi, hvy])⟩)⟩
        · simp [classify_hapi, hvy] at hs
          subst hs
          exact ⟨hpid, .inr (.inr ⟨r, hq, hf, hh, hcd, rfl,
            .inr (by simp [classify_hapi, hvy])⟩)⟩
      · have hnn : Hapi.notify_staff_node c.1 = .ok c.1 := by
          simp [Hapi.notify_staff_node, hcd, hhs]
        simp only [Hapi.step] at hs
        rw [hnn] at hs; cases hs
        exact ⟨hpid, .inr (.inr ⟨r, hq, hf, hh, hcd, hhs, .inr hst⟩)⟩
      · simp only [Hapi.step, Hapi.reschedule_node] at hs
        cases hs
        exact ⟨hpid, .inr (.inr ⟨r, hq, hf, hh, hcd, hhs, .inr hst⟩)⟩

theorem Hapi.invC_reachable {env : Hapi.FetchEnv} {now : ℚ} {pid : String} {c : Config}
    (h : Hapi.Reachable env now pid c) : Hapi.InvC env now pid c := by
  induction h with
  | refl => exact ⟨rfl, .inl ⟨rfl, rfl⟩⟩
  | tail h1 h2 ih => exact Hapi.invC_preserved ih h2

theorem Mock.invC_mock_preserved {now : ℚ} {pid : String} {c c2 : Config}
    (hinv : Mock.InvC now pid c) (hstep : Mock.StepsTo now c c2) :
    Mock.InvC now pid c2 := by
  obtain ⟨n, hn, hs⟩ := hstep
  obtain ⟨hpid, hcase⟩ := hinv
  rcases hcase with ⟨hs1, hk⟩ | ⟨hf, hs1, hk⟩ | ⟨r, hq, hf, hh, hcd, hhs, hsub⟩
  · -- initial configuration, about to run check_schedule
    rw [hk] at hn; injection hn with hn; subst hn
    rw [hs1] at hs
    simp only [Mock.step] at hs
    rcases hfc : Mock.fetch_catheter_data now pid with _ | r
    · have hcn : Mock.check_schedule_node now (initState pid)
          = .ok { patient_id := pid, status := some ("no_data") } := by
        simp [Mock.check_schedule_node, initState, hfc]
      rw [hcn] at hs; cases hs
      exact ⟨rfl, .inr (.inl ⟨hfc, rfl, rfl⟩)⟩
    · rcases hhr : hours_since_insertion r.inserted now with e | hq
      · have hcn : Mock.check_schedule_node now (initState pid) = .error e := by
          simp [Mock.check_schedule_node, initState, hfc, hhr]
        rw [hcn] at hs; cases hs
      · have hcn : Mock.check_schedule_node now (initState pid)
            = .ok { patient_id := pid, catheter_data := some r, hours_since := some hq } := by
          simp [Mock.check_schedule_node, initState, hfc, hhr]
        rw [hcn] at hs; cases hs
        exact ⟨rfl, .inr (.inr ⟨r, hq, hfc, hhr, rfl, rfl, .inl ⟨rfl, rfl⟩⟩)⟩
  · -- no-record state: decide_action raises, so there is no successor
    rw [hk] at hn; injection hn with hn; subst hn
    rw [hs1] at hs
    have hd : Mock.decide_action_node ({ patient_id := pid, status := some ("no_data") } : State)
        = .error .typeError := by
      simp [Mock.decide_action_node]
    simp only [Mock.step] at hs
    rw [hd] at hs; cases hs
  · -- with-record state
    rcases hsub with ⟨hst, hk⟩ | hst
    · rw [hk] at hn; injection hn with hn; subst hn
      simp only [Mock.step, Mock.decide_action_node_some_eq c.1 hq hhs] at hs
      by_cases h1 : CHANGE_INTERVAL_HOURS < hq
      · simp [classify_mock, h1] at hs
        subst hs
        exact ⟨hpid, .inr (.inr ⟨r, hq, hf, hh, hcd, hhs,
          .inr (by simp [classify_mock, h1])⟩)⟩
      · by_cases h2 : CHANGE_INTERVAL_HOURS - 2 < hq
        · simp [classify_mock, h1, h2] at hs
          subst hs
          exact ⟨hpid, .inr (.inr ⟨r, hq, hf, hh, hcd, hhs,
            .inr (by simp [classify_mock, h1, h2])⟩)⟩
        · simp [classify_mock, h1, h2] at hs
          subst hs
          exact ⟨hpid, .inr (.inr ⟨r, hq, hf, hh, hcd, hhs,
            .inr (by simp [classify_mock, h1, h2])⟩)⟩
    · cases n
      · have hcn : Mock.check_schedule_node now c.1
            = .ok { c.1 with catheter_data := some r, hours_since := some hq } := by
          simp [Mock.check_schedule_node, hpid, hf, hh]
        simp only [Mock.step] at hs
        rw [hcn] at hs; cases hs
        exact ⟨hpid, .inr (.inr ⟨r, hq, hf, hh, rfl, rfl, .inr hst⟩)⟩
      · simp only [Mock.step, Mock.decide_action_node_some_eq c.1 hq hhs] at hs
        by_cases h1 : CHANGE_INTERVAL_HOURS < hq
        · simp [classify_mock, h1] at hs
          subst hs
          exact ⟨hpid, .inr (.inr ⟨r, hq, hf, hh, hcd, hhs,
            .inr (by simp [classify_mock, h1])⟩)⟩
        · by_cases h2 : CHANGE_INTERVAL_HOURS - 2 < hq
          · simp [classify_mock, h1, h2] at hs
            subst hs
            exact ⟨hpid, .inr (.inr ⟨r, hq, hf, hh, hcd, hhs,
              .inr (by simp [classify_mock, h1, h2])⟩)⟩
          · simp [classify_mock, h1, h2] at hs
            subst hs
            exact ⟨hpid, .inr (.inr ⟨r, hq, hf, hh, hcd, hhs,
              .inr (by simp [classify_mock, h1, h2])⟩)⟩
      · have hnn : Mock.notify_staff_node c.1 = .ok c.1 := by
          simp [Mock.notify_staff_node, hcd, hhs]
        simp only [Mock.step] at hs
        rw [hnn] at hs; cases hs
        exact ⟨hpid, .inr (.inr ⟨r, hq, hf, hh, hcd, hhs, .inr hst⟩)⟩
      · simp only [Mock.step, Mock.reschedule_node] at hs
        cases hs
        exact ⟨hpid, .inr (.inr ⟨r, hq, hf, hh, hcd, hhs, .inr hst⟩)⟩

theorem Mock.invC_mock_reachable {now : ℚ} {pid : String} {c : Config}
    (h : Mock.Reachable now pid c) : Mock.InvC now pid c := by
  induction h with
  | refl => exact ⟨rfl, .inl ⟨rfl, rfl⟩⟩
  | tail h1 h2 ih => exact Mock.invC_mock_preserved ih h2

end Watchdog

namespace Watchdog

/-- C1 counterexample: with hours_since exactly equal to
CHANGE_INTERVAL_HOURS = 72, the hapi decide_action_node classifies ok and
the mock decide_action_node classifies borderline; neither returns
overdue, refuting the claim that the boundary value is classified
overdue. -/
theorem C1_boundary_cx :
    (Hapi.decide_action_node { patient_id := "p", hours_since := some 72 }).status = some ("ok")
    ∧ (Mock.decide_action_node { patient_id := "p", hours_since := some 72 }).map State.status
        = .ok (some ("borderline"))
    ∧ some ("ok") ≠ some ("overdue") ∧ some ("borderline") ≠ some ("overdue") := by
  refine ⟨?_, ?_, by decide, by decide⟩ <;>
    norm_num [Hapi.decide_action_node, Mock.decide_action_node, CHANGE_INTERVAL_HOURS,
      Except.map]

/-- C1 (corrected): both classifiers compare with a strict greater-than,
so a value exactly equal to INTERVAL is not overdue: at exactly 72 the
hapi classifier returns ok and the mock classifier returns borderline,
and overdue is returned exactly for values strictly greater than
INTERVAL. -/
theorem C1_boundary_amended (s : State) (h : s.hours_since = some CHANGE_INTERVAL_HOURS) :
    (Hapi.decide_action_node s).status = some ("ok")
    ∧ (Mock.decide_action_node s).map State.status = .ok (some ("borderline"))
    ∧ (∀ s2 : State, ∀ v : ℚ, s2.hours_since = some v →
        (((Hapi.decide_action_node s2).status = some ("overdue"))
            ↔ CHANGE_INTERVAL_HOURS < v)
        ∧ (((Mock.decide_action_node s2).map State.status = .ok (some ("overdue")))
            ↔ CHANGE_INTERVAL_HOURS < v)) := by
  refine ⟨?_, ?_, ?_⟩
  · norm_num [Hapi.decide_action_node, h, CHANGE_INTERVAL_HOURS]
  · norm_num [Mock.decide_action_node, h, CHANGE_INTERVAL_HOURS, Except.map]
  · intro s2 v h2
    constructor
    · by_cases hv : CHANGE_INTERVAL_HOURS < v
      · simp [Hapi.decide_action_node, h2, hv]
      · simp [Hapi.decide_action_node, h2, hv]
    · by_cases hv : CHANGE_INTERVAL_HOURS < v
      · simp [Mock.decide_action_node, h2, hv, Except.map]
      · by_cases hv2 : CHANGE_INTERVAL_HOURS - 2 < v
        · simp [Mock.decide_action_node, h2, hv, hv2, Except.map]
        · simp [Mock.decide_action_node, h2, hv, hv2, Except.map]

/-- C1 witness: the amended theorem applied at a state whose hours_since
is exactly the interval. -/
theorem C1_boundary_amended_w :
    (Hapi.decide_action_node { patient_id := "pw1", hours_since := some 72 }).status
      = some ("ok") :=
  (C1_boundary_amended { patient_id := "pw1", hours_since := some 72 } rfl).1

/-- C2 counterexample: a fetch that raises, or a record whose timestamp
cannot be parsed, is not caught at CHECK_SCHEDULE: the node and the whole
per-patient loop return the exception instead of a no_data outcome, and
the second patient is never processed. -/
theorem C2_failures_uncaught_cx :
    Hapi.check_schedule_node (fun _ => .error .requestError) 0 (initState ("p1"))
        = .error .requestError
    ∧ Hapi.run_patients (fun _ => .error .requestError) 0 5 ["p1", "p2"]
        = .error .requestError
    ∧ Hapi.invoke (fun _ => .ok [{ lastUpdated := some (.malformed ("not-a-timestamp")) }])
        0 5 "p1" = .error .valueError
    ∧ Hapi.run_patients (fun _ => .ok [{ lastUpdated := some (.malformed ("not-a-timestamp")) }])
        0 5 ["p1", "p2"] = .error .valueError :=
  ⟨rfl, rfl, rfl, rfl⟩

/-- C2 (corrected): only the no-record outcome degrades to no_data and
lets the loop continue; an exception while fetching, and a malformed
timestamp, are not caught at CHECK_SCHEDULE and abort the per-patient
loop. -/
theorem C2_failure_semantics (env : Hapi.FetchEnv) (now : ℚ) (pid : String)
    (rest : List String) (fuel : Nat) :
    (Hapi.fetch_catheter_data env pid = .ok none →
      Hapi.invoke env now (fuel + 1 + 1) pid
        = .ok (some { patient_id := pid, status := some ("no_data") }))
    ∧ (∀ (r : Option State) (l : List (String × Option State)),
        Hapi.invoke env now fuel pid = .ok r →
        Hapi.run_patients env now fuel rest = .ok l →
        Hapi.run_patients env now fuel (pid :: rest) = .ok ((pid, r) :: l))
    ∧ (∀ e : Err, env pid = .error e →
        Hapi.invoke env now (fuel + 1) pid = .error e
        ∧ Hapi.run_patients env now (fuel + 1) (pid :: rest) = .error e)
    ∧ (∀ (cd : CatheterRecord) (raw : String),
        Hapi.fetch_catheter_data env pid = .ok (some cd) → cd.inserted = .malformed raw →
        Hapi.invoke env now (fuel + 1) pid = .error .valueError
        ∧ Hapi.run_patients env now (fuel + 1) (pid :: rest) = .error .valueError) := by
  refine ⟨?_, ?_, ?_, ?_⟩
  · intro hfetch
    simp [Hapi.invoke, Hapi.run_from, Hapi.step, Hapi.check_schedule_node,
      Hapi.decide_action_node, hfetch, initState]
  · intro r l hi hr
    simp only [Hapi.run_patients, hi, hr]
  · intro e henv
    have hinv : Hapi.invoke env now (fuel + 1) pid = .error e := by
      simp [Hapi.invoke, Hapi.run_from, Hapi.step, Hapi.check_schedule_node,
        Hapi.fetch_catheter_data, henv, initState]
    exact ⟨hinv, by simp only [Hapi.run_patients, hinv]⟩
  · intro cd raw hfetch hins
    have hinv : Hapi.invoke env now (fuel + 1) pid = .error .valueError := by
      simp [Hapi.invoke, Hapi.run_from, Hapi.step, Hapi.check_schedule_node,
        hfetch, hins, hours_since_insertion, initState]
    exact ⟨hinv, by simp only [Hapi.run_patients, hinv]⟩

/-- C2 witness: the no-record case degrades to no_data and an erroring
fetch aborts the loop, both obtained from the amended theorem at concrete
environments. -/
theorem C2_failure_semantics_w :
    Hapi.invoke (fun _ => .ok []) 0 (3 + 1 + 1) "pw2"
        = .ok (some { patient_id := "pw2", status := some ("no_data") })
    ∧ (Hapi.invoke (fun _ => .error .requestError) 0 (3 + 1) "pw2" = .error .requestError
        ∧ Hapi.run_patients (fun _ => .error .requestError) 0 (3 + 1) ["pw2", "pw2b"]
            = .error .requestError) :=
  ⟨(C2_failure_semantics (fun _ => .ok []) 0 "pw2" [] 3).1 rfl,
   (C2_failure_semantics (fun _ => .error .requestError) 0 "pw2" ["pw2b"] 3).2.2.1
     .requestError rfl⟩

/-- C3 (code_bug): for a patient with no record, the mock provider returns
None and the mock cycle raises TypeError at decide_action (the None guard
is missing), contradicting the no_data contract and the no_data edge of
its own graph; the hapi variant behaves as claimed: the cycle ends with
status no_data, no exception, and the loop continues to the next
patient. -/
theorem C3_no_record_behaviour :
    Mock.fetch_catheter_data 0 "patient-999" = none
    ∧ Mock.invoke 0 5 "patient-999" = .error .typeError
    ∧ Hapi.invoke (fun _ => .ok []) 0 5 "pA"
        = .ok (some { patient_id := "pA", status := some ("no_data") })
    ∧ Hapi.run_patients (fun _ => .ok []) 0 5 ["pA", "pB"]
        = .ok [("pA", some { patient_id := "pA", status := some ("no_data") }),
               ("pB", some { patient_id := "pB", status := some ("no_data") })] :=
  ⟨rfl, rfl, rfl, rfl⟩

/-- C4 (code_bug): the hapi classifier maps an absent value to no_data and
present values to overdue above the interval and ok otherwise, and the
mock classifier realises the borderline window for present values (100
overdue, 71 borderline, 12 ok, and the mock patient inserted 70 hours ago
is borderline through the whole-second truncation of its stored
timestamp); but on an absent value the mock classifier raises TypeError
instead of returning no_data. -/
theorem C4_classifier_mapping :
    Mock.decide_action_node { patient_id := "p4" } = .error .typeError
    ∧ (Hapi.decide_action_node { patient_id := "p4" }).status = some ("no_data")
    ∧ (Mock.decide_action_node { patient_id := "p4", hours_since := some 100 }).map State.status
        = .ok (some ("overdue"))
    ∧ (Hapi.decide_action_node { patient_id := "p4", hours_since := some 100 }).status
        = some ("overdue")
    ∧ (Mock.decide_action_node { patient_id := "p4", hours_since := some 71 }).map State.status
        = .ok (some ("borderline"))
    ∧ (Mock.decide_action_node { patient_id := "p4", hours_since := some 12 }).map State.status
        = .ok (some ("ok"))
    ∧ (Hapi.decide_action_node { patient_id := "p4", hours_since := some 12 }).status
        = some ("ok")
    ∧ (Mock.fetch_catheter_data (1/2) "patient-003").map CatheterRecord.inserted
        = some (.valid (-252000))
    ∧ hours_since_insertion (.valid (-252000)) (1/2) = .ok (504001/7200)
    ∧ (Mock.decide_action_node
          { patient_id := "patient-003", hours_since := some (504001/7200) }).map State.status
        = .ok (some ("borderline")) := by
  have hf : Int.floor ((1:ℚ)/2 - 70 * 3600) = -252000 := by
    rw [Int.floor_eq_iff]
    norm_num
  have hoff : Mock.patient_offsets "patient-003" = some 70 := rfl
  refine ⟨rfl, rfl, ?_, ?_, ?_, ?_, ?_, ?_, ?_, ?_⟩
  · norm_num [Mock.decide_action_node, CHANGE_INTERVAL_HOURS, Except.map]
  · norm_num [Hapi.decide_action_node, CHANGE_INTERVAL_HOURS]
  · norm_num [Mock.decide_action_node, CHANGE_INTERVAL_HOURS, Except.map]
  · norm_num [Mock.decide_action_node, CHANGE_INTERVAL_HOURS, Except.map]
  · norm_num [Hapi.decide_action_node, CHANGE_INTERVAL_HOURS]
  · simp only [Mock.fetch_catheter_data, hoff]
    norm_num [hf]
  · norm_num [hours_since_insertion]
  · norm_num [Mock.decide_action_node, CHANGE_INTERVAL_HOURS, Except.map]

/-- C5: for a valid timestamp at or before now, the elapsed-hours function
returns exactly the difference converted to hours, a nonnegative value,
and the result is strictly antitone in the timestamp: an earlier insertion
yields a strictly larger elapsed value. -/
theorem C5_hours_exact_monotone :
    (∀ t now : ℚ, t ≤ now →
      hours_since_insertion (.valid t) now = .ok ((now - t) / 3600) ∧ 0 ≤ (now - t) / 3600)
    ∧ (∀ t1 t2 now h1 h2 : ℚ, t1 < t2 →
        hours_since_insertion (.valid t1) now = .ok h1 →
        hours_since_insertion (.valid t2) now = .ok h2 → h2 < h1) := by
  constructor
  · intro t now ht
    exact ⟨rfl, div_nonneg (sub_nonneg.mpr ht) (by norm_num)⟩
  · intro t1 t2 now h1 h2 hlt e1 e2
    simp only [hours_since_insertion, Except.ok.injEq] at e1 e2
    subst e1; subst e2
    gcongr

/-- C5 witness: the theorem applied with insertion at epoch second 0 and
3600, current time 7200. -/
theorem C5_hours_exact_monotone_w :
    ((0:ℚ) ≤ (7200 - 0) / 3600) ∧ (((7200 - 3600) / 3600 : ℚ) < (7200 - 0) / 3600) :=
  ⟨(C5_hours_exact_monotone.1 0 7200 (by decide)).2,
   C5_hours_exact_monotone.2 0 3600 7200 ((7200 - 0) / 3600) ((7200 - 3600) / 3600)
     (by decide) rfl rfl⟩

/-- C6: patient discovery merges the two record shapes into one
deduplicated set: a bundle with a direct Patient X and a Device referring
to patient Y yields the set with exactly X and Y, the same patient seen
through both shapes appears once, and an empty bundle yields the empty
set, not an error. The hypothesis states that the referenced id contains
no slash, as FHIR relative references require. -/
theorem C6_discovery_merging (X Y : String) (hY : ('/') ∉ Y.data) :
    fetch_patients_with_catheters [.patient X, .device ("Patient/" ++ Y)] = {X, Y}
    ∧ fetch_patients_with_catheters [.patient Y, .device ("Patient/" ++ Y)] = {Y}
    ∧ fetch_patients_with_catheters [] = (∅ : Finset String) := by
  have hsw := startswith_patient_ref Y
  have hsp := split_patient_ref Y hY
  refine ⟨?_, ?_, rfl⟩
  · have h1 : fetch_patients_with_catheters [.patient X, .device ("Patient/" ++ Y)]
        = insert ((split ('/') ("Patient/" ++ Y)).getD 1 "") (insert X ∅) := by
      simp [fetch_patients_with_catheters, hsw]
    rw [h1, hsp]
    exact Finset.Insert.comm Y X ∅
  · have h1 : fetch_patients_with_catheters [.patient Y, .device ("Patient/" ++ Y)]
        = insert ((split ('/') ("Patient/" ++ Y)).getD 1 "") (insert Y ∅) := by
      simp [fetch_patients_with_catheters, hsw]
    rw [h1, hsp]
    simp

/-- C6 witness: the theorem applied at two concrete patient ids. -/
theorem C6_discovery_merging_w :
    fetch_patients_with_catheters [.patient ("alice"), .device ("Patient/" ++ "bob")]
      = {"alice", "bob"} :=
  (C6_discovery_merging "alice" "bob" (by decide)).1

/-- C7: in every configuration reachable in a cycle of either workflow,
hours_since is present exactly when catheter_data is present, and
whenever status is set it equals the classifier value of hours_since, so
status is never assigned independently of it. -/
theorem C7_state_invariant :
    (∀ (env : Hapi.FetchEnv) (now : ℚ) (pid : String) (c : Config),
        Hapi.Reachable env now pid c →
          (c.1.hours_since.isSome ↔ c.1.catheter_data.isSome)
          ∧ (∀ st, c.1.status = some st → st = classify_hapi c.1.hours_since))
    ∧ (∀ (now : ℚ) (pid : String) (c : Config),
        Mock.Reachable now pid c →
          (c.1.hours_since.isSome ↔ c.1.catheter_data.isSome)
          ∧ (∀ st, c.1.status = some st → st = classify_mock c.1.hours_since)) := by
  constructor
  · intro env now pid c hre
    obtain ⟨hpid, hcase⟩ := Hapi.invC_reachable hre
    rcases hcase with ⟨hs1, hk⟩ | ⟨hf, hs1, hk⟩ | ⟨r, hq, hf, hh, hcd, hhs, hsub⟩
    · rw [hs1]
      exact ⟨by simp [initState], by intro st hst; simp [initState] at hst⟩
    · rw [hs1]
      refine ⟨by simp, ?_⟩
      intro st hst
      simp at hst
      subst hst
      rfl
    · refine ⟨by simp [hhs, hcd], ?_⟩
      intro st hst
      rcases hsub with ⟨hnone, hk⟩ | hcl
      · rw [hnone] at hst; cases hst
      · rw [hcl] at hst
        injection hst with hst
        rw [← hst, hhs]
  · intro now pid c hre
    obtain ⟨hpid, hcase⟩ := Mock.invC_mock_reachable hre
    rcases hcase with ⟨hs1, hk⟩ | ⟨hf, hs1, hk⟩ | ⟨r, hq, hf, hh, hcd, hhs, hsub⟩
    · rw [hs1]
      exact ⟨by simp [initState], by intro st hst; simp [initState] at hst⟩
    · rw [hs1]
      refine ⟨by simp, ?_⟩
      intro st hst
      simp at hst
      subst hst
      rfl
    · refine ⟨by simp [hhs, hcd], ?_⟩
      intro st hst
      rcases hsub with ⟨hnone, hk⟩ | hcl
      · rw [hnone] at hst; cases hst
      · rw [hcl] at hst
        injection hst with hst
        rw [← hst, hhs]

/-- C7 witness: the invariant applied to the configuration reached after
one check_schedule step for a patient without a record. -/
theorem C7_state_invariant_w :
    ("no_data" : String)
      = classify_hapi ({ patient_id := "pw7", status := some ("no_data") } : State).hours_since :=
  (C7_state_invariant.1 (fun _ => .ok []) 0 "pw7"
      (({ patient_id := "pw7", status := some ("no_data") } : State), some Node.decide_action)
      (Relation.ReflTransGen.tail Relation.ReflTransGen.refl
        ⟨Node.check_schedule, rfl, rfl⟩)).2 "no_data" rfl

/-- C8: within a cycle, check_schedule always hands over to decide_action;
decide_action routes to notify_staff exactly when the status is overdue,
to reschedule on ok (and borderline in the mock), and short-circuits to
END exactly on no_data; notify_staff always hands over to reschedule;
reschedule loops back to check_schedule in the hapi variant and ends the
pass in the mock variant; and no step other than an overdue decide_action
ever enters notify_staff. -/
theorem C8_stage_ordering :
    (∀ (env : Hapi.FetchEnv) (now : ℚ) (s : State) (c2 : State × Option Node),
        Hapi.step env now .check_schedule s = .ok c2 → c2.2 = some .decide_action)
    ∧ (∀ (env : Hapi.FetchEnv) (now : ℚ) (s : State) (c2 : State × Option Node),
        Hapi.step env now .decide_action s = .ok c2 →
          (c2.2 = some .notify_staff ∧ c2.1.status = some ("overdue"))
          ∨ (c2.2 = some .reschedule ∧ c2.1.status = some ("ok"))
          ∨ (c2.2 = none ∧ c2.1.status = some ("no_data")))
    ∧ (∀ (env : Hapi.FetchEnv) (now : ℚ) (s : State) (c2 : State × Option Node),
        Hapi.step env now .notify_staff s = .ok c2 → c2.2 = some .reschedule)
    ∧ (∀ (env : Hapi.FetchEnv) (now : ℚ) (s : State) (c2 : State × Option Node),
        Hapi.step env now .reschedule s = .ok c2 → c2.2 = some .check_schedule)
    ∧ (∀ (env : Hapi.FetchEnv) (now : ℚ) (n : Node) (s : State) (c2 : State × Option Node),
        Hapi.step env now n s = .ok c2 → c2.2 = some .notify_staff →
          n = .decide_action ∧ c2.1.status = some ("overdue"))
    ∧ (∀ (now : ℚ) (s : State) (c2 : State × Option Node),
        Mock.step now .check_schedule s = .ok c2 → c2.2 = some .decide_action)
    ∧ (∀ (now : ℚ) (s : State) (c2 : State × Option Node),
        Mock.step now .decide_action s = .ok c2 →
          (c2.2 = some .notify_staff ∧ c2.1.status = some ("overdue"))
          ∨ (c2.2 = some .reschedule ∧
              (c2.1.status = some ("borderline") ∨ c2.1.status = some ("ok")))
          ∨ (c2.2 = none ∧ c2.1.status = some ("no_data")))
    ∧ (∀ (now : ℚ) (s : State) (c2 : State × Option Node),
        Mock.step now .notify_staff s = .ok c2 → c2.2 = some .reschedule)
    ∧ (∀ (now : ℚ) (s : State) (c2 : State × Option Node),
        Mock.step now .reschedule s = .ok c2 → c2.2 = none)
    ∧ (∀ (now : ℚ) (n : Node) (s : State) (c2 : State × Option Node),
        Mock.step now n s = .ok c2 → c2.2 = some .notify_staff →
          n = .decide_action ∧ c2.1.status = some ("overdue")) :=
  ⟨fun _ _ _ _ h => Hapi.step_check_next h,
   fun _ _ _ _ h => Hapi.step_decide_cases h,
   fun _ _ _ _ h => Hapi.step_notify_next h,
   fun _ _ _ _ h => Hapi.step_reschedule_next h,
   fun _ _ _ _ _ h hk => Hapi.notify_only_from_decide h hk,
   fun _ _ _ h => Mock.check_next h,
   fun _ _ _ h => Mock.decide_cases h,
   fun _ _ _ h => Mock.notify_next h,
   fun _ _ _ h => Mock.reschedule_next h,
   fun _ _ _ _ h hk => Mock.notify_from_decide h hk⟩

/-- C8 witness: the decide_action clause applied at a concrete overdue
state, showing the transition to notify_staff. -/
theorem C8_stage_ordering_w :
    (((({ patient_id := "pw8",
          catheter_data := some { patient_id := "pw8", inserted := .valid 0 },
          hours_since := some 100, status := some ("overdue") } : State),
        some Node.notify_staff) : State × Option Node).2 = some Node.notify_staff
      ∧ (({ patient_id := "pw8",
            catheter_data := some { patient_id := "pw8", inserted := .valid 0 },
            hours_since := some 100, status := some ("overdue") } : State),
          some Node.notify_staff).1.status = some ("overdue"))
    ∨ ((({ patient_id := "pw8",
           catheter_data := some { patient_id := "pw8", inserted := .valid 0 },
           hours_since := some 100, status := some ("overdue") } : State),
         some Node.notify_staff).2 = some Node.reschedule
        ∧ (({ patient_id := "pw8",
              catheter_data := some { patient_id := "pw8", inserted := .valid 0 },
              hours_since := some 100, status := some ("overdue") } : State),
            some Node.notify_staff).1.status = some ("ok"))
    ∨ ((({ patient_id := "pw8",
           catheter_data := some { patient_id := "pw8", inserted := .valid 0 },
           hours_since := some 100, status := some ("overdue") } : State),
         some Node.notify_staff).2 = none
        ∧ (({ patient_id := "pw8",
              catheter_data := some { patient_id := "pw8", inserted := .valid 0 },
              hours_since := some 100, status := some ("overdue") } : State),
            some Node.notify_staff).1.status = some ("no_data")) :=
  C8_stage_ordering.2.1 (fun _ => .ok []) 0
    { patient_id := "pw8", catheter_data := some { patient_id := "pw8", inserted := .valid 0 },
      hours_since := some 100 }
    ({ patient_id := "pw8", catheter_data := some { patient_id := "pw8", inserted := .valid 0 },
       hours_since := some 100, status := some ("overdue") }, some Node.notify_staff)
    rfl

/-- C9: a run for one patient is a function of the record the provider
returns for that patient and of the current time: two environments that
agree on the patient produce identical runs, so repeating the workflow
with the same fixed insertion timestamp and the same now yields the same
status. -/
theorem C9_invoke_deterministic (env1 env2 : Hapi.FetchEnv) (now : ℚ) (fuel : Nat)
    (pid : String) (h : env1 pid = env2 pid) :
    Hapi.invoke env1 now fuel pid = Hapi.invoke env2 now fuel pid :=
  Hapi.run_from_congr env1 env2 now fuel .check_schedule (initState pid) h

/-- C9 witness: two environments that agree on the patient but differ
elsewhere give identical runs. -/
theorem C9_invoke_deterministic_w :
    Hapi.invoke (fun p => if p = "pw9" then .ok [] else .error .requestError) 0 5 "pw9"
      = Hapi.invoke (fun _ => .ok []) 0 5 "pw9" :=
  C9_invoke_deterministic (fun p => if p = "pw9" then .ok [] else .error .requestError)
    (fun _ => .ok []) 0 5 "pw9" rfl

/-- C10: when the bundle for a patient is non-empty, fetch_catheter_data
reads only the first entry: if that entry has no meta.lastUpdated, the
result is None regardless of what the later entries carry. -/
theorem C10_first_entry_only (env : Hapi.FetchEnv) (pid : String)
    (catheter : DeviceResource) (rest : List DeviceResource)
    (henv : env pid = .ok (catheter :: rest)) (hmeta : catheter.lastUpdated = none) :
    Hapi.fetch_catheter_data env pid = .ok none := by
  simp [Hapi.fetch_catheter_data, henv, hmeta]

/-- C10 witness: the theorem applied to a bundle whose first entry lacks
the timestamp while the second entry carries one. -/
theorem C10_first_entry_only_w :
    Hapi.fetch_catheter_data
      (fun _ => .ok [{ lastUpdated := none }, { lastUpdated := some (.valid 0) }]) "pw10"
      = .ok none :=
  C10_first_entry_only (fun _ => .ok [{ lastUpdated := none }, { lastUpdated := some (.valid 0) }])
    "pw10" { lastUpdated := none } [{ lastUpdated := some (.valid 0) }] rfl rfl

end Watchdog
